import Mathlib

/-! Verification of the AK_RetrieveCustomerfromF-O repository: the D365 F&O
OData client (`src/api_client.py`), the OAuth authenticator (`src/auth.py`),
the GPT field extractor (`src/message_parser.py`) and the WhatsApp webhook
pipeline (`src/whatsapp_webhook.py`).

Shallow embedding: external HTTP traffic and library calls are abstracted as
oracle arguments supplied to each definition; everything else follows the
Python control flow line by line.  Machine integers do not overflow in any
modelled path, so `Nat`/`Int` are used directly. -/

namespace D365

/-- Query parameters of an HTTP request, as an association list (the Python
`dict` handed to `requests`). -/
abbrev Params := List (String × String)

/-- One parsed OData response page: `data.get("value", [])` and
`data.get("@odata.nextLink")` (`src/api_client.py` lines 49 and 59).
Records are kept abstract in the type parameter. -/
structure PageData (α : Type) where
  value : List α
  nextLink : Option String
deriving Repr, DecidableEq

/-- One HTTP GET issued by the pagination loop: the URL and the `params`
argument passed to `self.session.get` (`none` models Python `None`). -/
structure ApiRequest where
  url : String
  params : Option Params
deriving Repr, DecidableEq

/-- The `MAX_RETRIES` constant (`src/api_client.py` line 9). -/
def MAX_RETRIES : Nat := 3

/-- The `RETRY_BACKOFF_BASE` constant (`src/api_client.py` line 10). -/
def RETRY_BACKOFF_BASE : Nat := 2

/-- Python truthiness of the `max_records : int | None` argument as tested by
`if max_records and ...` (line 53): `None` and `0` are both falsy. -/
def natTruthy : Option Nat → Bool
| none => false
| some n => n != 0

/-- Python truthiness of an optional string (`None` and the empty string are
both falsy); used for the `while url:` loop condition of `get_all_records`
(line 45 of `src/api_client.py`). -/
def strTruthy : Option String → Bool
| none => false
| some s => s != ""

/-- Query-parameter construction of `get_all_records` (lines 36-40): a
`$select` entry joining the field names with commas when `select_fields` is
truthy (non-`None` and non-empty), then a `cross-company` entry when
`cross_company` is true. -/
def buildParams (selectFields : Option (List String)) (crossCompany : Bool) : Params :=
  (match selectFields with
   | some fields => if fields.isEmpty then [] else [("$select", String.intercalate "," fields)]
   | none => []) ++ (if crossCompany then [("cross-company", "true")] else [])

/-- The `while url:` loop of `get_all_records` (lines 45-60), with the HTTP
layer abstracted as `serve` (each call is one successful `_get_with_retry`)
and a fuel bound on the number of iterations (the Python loop is unbounded).
Page 1 passes the constructed `params`; every later page passes `None`
(line 47).  After extending the accumulator, the `max_records` truncation
check runs (lines 53-56), then the loop follows `@odata.nextLink` (line 59).
Returns the accumulated records together with the trace of requests issued,
or `none` when the fuel runs out before the loop terminates. -/
def getAllRecordsLoop {α : Type} (serve : String → Option Params → PageData α)
    (params : Params) (maxRecords : Option Nat) :
    Nat → String → Nat → List α → Option (List α × List ApiRequest)
| 0, _, _, _ => none
| fuel + 1, url, page, acc =>
  let pr : Option Params := if page = 1 then some params else none
  let data := serve url pr
  let acc' := acc ++ data.value
  if natTruthy maxRecords && decide (maxRecords.getD 0 ≤ acc'.length) then
    some (acc'.take (maxRecords.getD 0), [⟨url, pr⟩])
  else if strTruthy data.nextLink then
    match getAllRecordsLoop serve params maxRecords fuel (data.nextLink.getD "") (page + 1) acc' with
    | none => none
    | some (res, reqs) => some (res, ⟨url, pr⟩ :: reqs)
  else
    some (acc', [⟨url, pr⟩])

/-- Embedding of `D365ApiClient.get_all_records` (lines 26-62): build the
entity URL and the query parameters, then run the pagination loop starting at
page 1 with an empty accumulator. -/
def get_all_records {α : Type} (serve : String → Option Params → PageData α)
    (baseUrl entity : String) (selectFields : Option (List String))
    (crossCompany : Bool) (maxRecords : Option Nat) (fuel : Nat) :
    Option (List α × List ApiRequest) :=
  getAllRecordsLoop serve (buildParams selectFields crossCompany) maxRecords fuel
    (baseUrl ++ "/data/" ++ entity) 1 []

/-- The page sequence an abstract server yields when the client starts at
`url` with parameters `pr` and follows each `@odata.nextLink` verbatim with
no parameters re-attached: `ServesChain serve url pr ps` holds when the
successive responses are exactly `ps` and the last page carries no (or an
empty) continuation link. -/
inductive ServesChain {α : Type} (serve : String → Option Params → PageData α) :
    String → Option Params → List (PageData α) → Prop
| last {url : String} {pr : Option Params} {p : PageData α} :
    serve url pr = p → strTruthy p.nextLink = false → ServesChain serve url pr [p]
| step {url : String} {pr : Option Params} {p : PageData α} {next : String}
    {ps : List (PageData α)} :
    serve url pr = p → p.nextLink = some next → next ≠ "" →
    ServesChain serve next none ps → ServesChain serve url pr (p :: ps)

/-- Concatenation of the record lists of a page sequence, in server order. -/
def pagesRecords {α : Type} : List (PageData α) → List α
| [] => []
| p :: ps => p.value ++ pagesRecords ps

/-- The requests the pagination loop is expected to issue for a page
sequence: the first against the given URL with the given parameters, each
later one against the previous page's continuation link, verbatim, with no
parameters attached. -/
def chainRequests {α : Type} (url : String) (pr : Option Params)
    (ps : List (PageData α)) : List ApiRequest :=
  ⟨url, pr⟩ :: ps.dropLast.map (fun p => ⟨p.nextLink.getD "", none⟩)

/-- Number of pages fetched until the accumulated record count first reaches
`n`; used to state that no further pages are requested once a `max_records`
limit is hit. -/
def pagesUntil {α : Type} : Nat → List (PageData α) → Nat
| _, [] => 0
| n, p :: ps => if n ≤ p.value.length then 1 else 1 + pagesUntil (n - p.value.length) ps

/-- Outcome of one HTTP attempt inside `_get_with_retry` / `_post_with_retry`:
either a response with a status code and a parsed body, or one of the two
`requests` exceptions the code catches (lines 93 and 100). -/
inductive HttpAttempt (α : Type) where
| response (status : Nat) (body : α)
| connError
| timeout
deriving Repr, DecidableEq

/-- The terminal errors of `_get_with_retry` / `_post_with_retry`: each
constructor is one of the `raise SystemExit(...)` sites of
`src/api_client.py`. -/
inductive ApiError where
| authError             -- line 75/133: 401, "Authentication error. ..."
| requestFailed (status : Nat)  -- line 91/156: other 4xx, non-retryable
| connectFailed         -- line 97/162: connection error on the final attempt
| timedOut              -- line 104/169: timeout on the final attempt
| retriesExhausted      -- line 107/172: loop finished without returning
deriving Repr, DecidableEq

/-- Observable events of a retry loop: each HTTP attempt issued (with its
attempt number) and each `time.sleep` performed (with its duration in
seconds). -/
inductive RetryEvent where
| attempt (k : Nat)
| slept (secs : Nat)
deriving Repr, DecidableEq

/-- The body of `_get_with_retry`'s `for attempt in range(1, MAX_RETRIES+1)`
loop (lines 66-107), run over the list of remaining attempt numbers.  The
HTTP layer is abstracted as `respond`, mapping an attempt number to that
attempt's outcome.  Returns the result (`Except` models the `return` versus
the `raise SystemExit` paths) together with the trace of attempts and
sleeps.  An empty attempt list is the fall-through `raise SystemExit` of
line 107. -/
def getRetryLoop {α : Type} (respond : Nat → HttpAttempt α) :
    List Nat → Except ApiError α × List RetryEvent
| [] => (.error .retriesExhausted, [])
| attempt :: rest =>
  match respond attempt with
  | .response status body =>
    if status = 200 then (.ok body, [.attempt attempt])
    else if status = 401 then (.error .authError, [.attempt attempt])
    else if status = 429 then
      let next := getRetryLoop respond rest
      (next.1, .attempt attempt :: .slept (RETRY_BACKOFF_BASE ^ attempt) :: next.2)
    else if 500 ≤ status then
      let next := getRetryLoop respond rest
      (next.1, .attempt attempt :: .slept (RETRY_BACKOFF_BASE ^ attempt) :: next.2)
    else (.error (.requestFailed status), [.attempt attempt])
  | .connError =>
    if attempt = MAX_RETRIES then (.error .connectFailed, [.attempt attempt])
    else
      let next := getRetryLoop respond rest
      (next.1, .attempt attempt :: .slept (RETRY_BACKOFF_BASE ^ attempt) :: next.2)
  | .timeout =>
    if attempt = MAX_RETRIES then (.error .timedOut, [.attempt attempt])
    else
      let next := getRetryLoop respond rest
      (next.1, .attempt attempt :: .slept (RETRY_BACKOFF_BASE ^ attempt) :: next.2)

/-- Embedding of `D365ApiClient._get_with_retry` (lines 64-107): run the
attempt loop over attempts `1, ..., MAX_RETRIES`. -/
def get_with_retry {α : Type} (respond : Nat → HttpAttempt α) :
    Except ApiError α × List RetryEvent :=
  getRetryLoop respond (List.range' 1 MAX_RETRIES)

/-- The body of `_post_with_retry`'s attempt loop (lines 124-172).  Identical
to the GET loop except that success is status 201 (line 128); the extra
error-body logging of lines 148-154 has no effect on control flow. -/
def postRetryLoop {α : Type} (respond : Nat → HttpAttempt α) :
    List Nat → Except ApiError α × List RetryEvent
| [] => (.error .retriesExhausted, [])
| attempt :: rest =>
  match respond attempt with
  | .response status body =>
    if status = 201 then (.ok body, [.attempt attempt])
    else if status = 401 then (.error .authError, [.attempt attempt])
    else if status = 429 then
      let next := postRetryLoop respond rest
      (next.1, .attempt attempt :: .slept (RETRY_BACKOFF_BASE ^ attempt) :: next.2)
    else if 500 ≤ status then
      let next := postRetryLoop respond rest
      (next.1, .attempt attempt :: .slept (RETRY_BACKOFF_BASE ^ attempt) :: next.2)
    else (.error (.requestFailed status), [.attempt attempt])
  | .connError =>
    if attempt = MAX_RETRIES then (.error .connectFailed, [.attempt attempt])
    else
      let next := postRetryLoop respond rest
      (next.1, .attempt attempt :: .slept (RETRY_BACKOFF_BASE ^ attempt) :: next.2)
  | .timeout =>
    if attempt = MAX_RETRIES then (.error .timedOut, [.attempt attempt])
    else
      let next := postRetryLoop respond rest
      (next.1, .attempt attempt :: .slept (RETRY_BACKOFF_BASE ^ attempt) :: next.2)

/-- Embedding of `D365ApiClient._post_with_retry` (lines 122-172). -/
def post_with_retry {α : Type} (respond : Nat → HttpAttempt α) :
    Except ApiError α × List RetryEvent :=
  postRetryLoop respond (List.range' 1 MAX_RETRIES)

/-- An attempt outcome the client retries on: HTTP 429, HTTP 5xx, a
connection error, or a timeout. -/
def retryable {α : Type} : HttpAttempt α → Bool
| .response status _ => status == 429 || 500 ≤ status
| .connError => true
| .timeout => true

/-- Errors that report exhausted attempts: the three `SystemExit` messages
"Failed after 3 retries.", "Failed to connect after 3 attempts." and
"Request timed out after 3 attempts.". -/
def isExhausted : ApiError → Bool
| .retriesExhausted => true
| .connectFailed => true
| .timedOut => true
| _ => false

/-- The attempt numbers recorded in a retry trace, in order. -/
def attemptsOf (evs : List RetryEvent) : List Nat :=
  evs.filterMap (fun e => match e with | .attempt k => some k | _ => none)

/-- The sleep durations recorded in a retry trace, in order. -/
def sleepsOf (evs : List RetryEvent) : List Nat :=
  evs.filterMap (fun e => match e with | .slept w => some w | _ => none)

/-- A JSON value as returned by `json.loads` in `src/message_parser.py`. -/
inductive JsonVal where
| null
| jbool (b : Bool)
| jnum (n : Int)
| jstr (s : String)
| jarr (elems : List JsonVal)
| jobj (fields : List (String × JsonVal))

mutual

/-- Python `repr` of a JSON value, used for elements rendered inside
containers by `str`. -/
def pyRepr : JsonVal → String
| .null => "None"
| .jbool true => "True"
| .jbool false => "False"
| .jnum n => toString n
| .jstr s => "\x27" ++ s ++ "\x27"
| .jarr xs => "[" ++ pyReprElems xs ++ "]"
| .jobj kvs => "\x7b" ++ pyReprPairs kvs ++ "\x7d"

/-- Comma-separated `repr` rendering of list elements. -/
def pyReprElems : List JsonVal → String
| [] => ""
| [x] => pyRepr x
| x :: xs => pyRepr x ++ ", " ++ pyReprElems xs

/-- Comma-separated `repr` rendering of dict entries. -/
def pyReprPairs : List (String × JsonVal) → String
| [] => ""
| [kv] => "\x27" ++ kv.1 ++ "\x27: " ++ pyRepr kv.2
| kv :: kvs => "\x27" ++ kv.1 ++ "\x27: " ++ pyRepr kv.2 ++ ", " ++ pyReprPairs kvs

end

/-- Python `str` of a JSON value (`str(data.get(...))`, lines 82-84 of
`src/message_parser.py`): identity on strings, `repr`-style otherwise. -/
def pyStr : JsonVal → String
| .jstr s => s
| v => pyRepr v

/-- Python `key in dict` membership test. -/
def jdictHas (kvs : List (String × JsonVal)) (k : String) : Bool :=
  kvs.any (fun kv => kv.1 == k)

/-- Python `dict.get(key)`: the value of the first matching key, if any
(JSON objects have unique keys). -/
def jdictGet? (kvs : List (String × JsonVal)) (k : String) : Option JsonVal :=
  (kvs.find? (fun kv => kv.1 == k)).map (fun kv => kv.2)

/-- The `CustomerFields` dataclass of `src/message_parser.py` (lines 30-36). -/
structure CustomerFields where
  customer_account : String
  organization_name : String
  customer_group_id : String
deriving Repr, DecidableEq

/-- The `SYSTEM_PROMPT` constant of `src/message_parser.py` (lines 11-23),
verbatim. -/
def SYSTEM_PROMPT : String :=
  "You are a data extraction assistant for a Dynamics 365 Finance & Operations system.\nYour job is to extract exactly three fields from a user\x27s voice message about creating a new customer.\n\nThe three required fields are:\n1. CustomerAccount - A short alphanumeric identifier (e.g., \"AK001\", \"CUST042\"). If the user says something like \"account AK001\" or \"customer ID AK001\", extract \"AK001\".\n2. OrganizationName - The full name of the customer/company/organization (e.g., \"Abdo Khoury\", \"Contoso Ltd\").\n3. CustomerGroupId - A numeric group identifier (e.g., \"80\", \"10\", \"20\"). If the user says \"group 80\" or \"customer group eighty\", extract \"80\".\n\nYou MUST respond with ONLY a valid JSON object in this exact format, with no additional text:\n\x7b\"CustomerAccount\": \"...\", \"OrganizationName\": \"...\", \"CustomerGroupId\": \"...\"\x7d\n\nIf you cannot confidently extract ALL THREE fields from the message, respond with:\n\x7b\"error\": \"Could not extract [list missing fields]. Please state your customer account ID, organization name, and customer group number.\"\x7d"

/-- Outcome of the two external effects inside `extract_customer_fields`:
the `client.chat.completions.create` call (which can raise `APIError`,
`APIConnectionError` or `RateLimitError`, line 64) followed by `json.loads`
on the reply content (which can raise `JSONDecodeError`, line 73).  The
transcribed `text` is sent to the model; the model's answer is this value. -/
inductive GptInput where
| apiFailure (msg : String)
| invalidJson
| parsed (v : JsonVal)

/-- Result of `extract_customer_fields`: a `CustomerFields` return, a raised
`ParseError` with its message, or an uncaught Python error (`json.loads`
returned a non-object, so `data.get` raises `AttributeError` or the `in`
test raises `TypeError`; neither is a `ParseError`). -/
inductive ExtractOutcome where
| ok (fields : CustomerFields)
| parseError (msg : String)
| pyError
deriving Repr, DecidableEq

/-- Python `str.strip()`: remove leading and trailing whitespace. -/
def pyStrip (s : String) : String :=
  String.mk (((s.data.dropWhile Char.isWhitespace).reverse.dropWhile Char.isWhitespace).reverse)

/-- One extracted field: `str(data.get(key, "")).strip()` (lines 82-84). -/
def fieldValue (kvs : List (String × JsonVal)) (k : String) : String :=
  pyStrip (pyStr ((jdictGet? kvs k).getD (.jstr "")))

/-- The `missing` list built by lines 86-92, in source order. -/
def missingOf (kvs : List (String × JsonVal)) : List String :=
  (if fieldValue kvs "CustomerAccount" = "" then ["CustomerAccount"] else []) ++
  (if fieldValue kvs "OrganizationName" = "" then ["OrganizationName"] else []) ++
  (if fieldValue kvs "CustomerGroupId" = "" then ["CustomerGroupId"] else [])

/-- The `ParseError` message of lines 94-99. -/
def missingMessage (missing : List String) : String :=
  "Could not extract: " ++ String.intercalate ", " missing ++
    ". Please state your customer account ID, organization name, and customer group number."

/-- Embedding of `extract_customer_fields` (lines 39-107): the GPT call and
the JSON decode are summarised by the `reply` argument, the rest follows the
source.  The `text` argument is the transcription sent to the model and does
not otherwise influence the control flow. -/
def extract_customer_fields (text : String) (reply : GptInput) : ExtractOutcome :=
  match reply with
  | .apiFailure msg => .parseError ("Field extraction failed: " ++ msg)
  | .invalidJson =>
    .parseError "Could not parse the response. Please try again with a clearer message."
  | .parsed (.jobj kvs) =>
    if jdictHas kvs "error" then
      .parseError (pyStr ((jdictGet? kvs "error").getD .null))
    else
      let missing := missingOf kvs
      if missing.isEmpty then
        .ok ⟨fieldValue kvs "CustomerAccount", fieldValue kvs "OrganizationName",
             fieldValue kvs "CustomerGroupId"⟩
      else
        .parseError (missingMessage missing)
  | .parsed _ => .pyError

/-- A server-side record, as the dict parsed from a JSON response body;
string-valued fields suffice for every field the code reads. -/
abbrev Record := List (String × String)

/-- Python `dict.get(key, default)` on a record. -/
def recordGetD (r : Record) (k d : String) : String :=
  ((r.find? (fun kv => kv.1 == k)).map (fun kv => kv.2)).getD d

/-- Embedding of `D365Authenticator.get_access_token` (`src/auth.py`
lines 25-43).  `silent` is the `acquire_token_silent` result (`None` or a
dict, the empty dict being falsy like `None`), `fresh` the
`acquire_token_for_client` result.  `Except Unit` models the `sys.exit(1)`
call: a raised `SystemExit`. -/
def get_access_token (silent : Option Record) (fresh : Record) : Except Unit String :=
  let result := match silent with
    | none => fresh
    | some r => if r.isEmpty then fresh else r
  match (result.find? (fun kv => kv.1 == "access_token")).map (fun kv => kv.2) with
  | some tok => .ok tok
  | none => .error ()

/-- The Python exceptions that can propagate inside the webhook pipeline. -/
inductive PyExc where
| valueError          -- int("...") on a non-numeric NumMedia form value (line 106)
| runtimeError        -- raised by _download_audio on a non-200 status (line 226)
| requestsError       -- a requests exception escaping _download_audio (not a RuntimeError)
| transcriptionError  -- TranscriptionError (src/speech_to_text.py)
| typeError           -- wrong-arity call, or attribute access on a non-dict
| systemExit          -- SystemExit (subclass of BaseException, not of Exception)
deriving Repr, DecidableEq

/-- A Flask response of the webhook: the 403 rejection or a TwiML document
carrying the bodies of its reply messages. -/
inductive TwilioResponse where
| forbidden
| twiml (messages : List String)
deriving Repr, DecidableEq

/-- Embedding of `_make_twiml_reply` (lines 251-255): a TwiML document with
exactly one message. -/
def make_twiml_reply (msg : String) : TwilioResponse := .twiml [msg]

/-- What the webhook invocation amounted to: a response sent back to Twilio,
or a crash (an exception no boundary caught). -/
inductive WebhookOutcome where
| response (r : TwilioResponse)
| crashed (e : PyExc)
deriving Repr, DecidableEq

/-- The pipeline stages, in the order the handler enters them; traces of
these events witness which stages a request reached. -/
inductive StageEvent where
| mediaCheck
| download
| transcribeCall
| extractCall
| authCreateCall
deriving Repr, DecidableEq

/-- The `USAGE_INSTRUCTIONS` constant (`src/whatsapp_webhook.py`
lines 19-27). -/
def USAGE_INSTRUCTIONS : String :=
  "Welcome to the D365 F&O Customer Creator!\n\nSend a *voice message* describing the customer you want to create.\n\nInclude:\n- Customer account ID (e.g. AK001)\n- Organization name (e.g. Abdo Khoury)\n- Customer group number (e.g. 80)\n\nExample: \"Create customer AK005, name Abdo Khoury, group 80\""

/-- The generic apology of the outer boundary (lines 91-94). -/
def GENERIC_ERROR_REPLY : String :=
  "Something went wrong while processing your message. Please try again. If the problem persists, contact an administrator."

/-- The download-stage failure reply (lines 122-124). -/
def DOWNLOAD_FAILED_REPLY : String :=
  "Failed to download your voice message. Please try again."

/-- The transcription-stage failure reply (lines 131-134). -/
def TRANSCRIBE_FAILED_REPLY : String :=
  "Could not transcribe your voice message. Please try again with a clearer recording."

/-- The authenticate-and-create-stage failure reply (lines 156-159). -/
def CREATE_FAILED_REPLY : String :=
  "Failed to create customer in D365 F&O. Please try again later or contact an administrator."

/-- The step-7 confirmation text (lines 161-171): each field read from the
server-returned record with the extracted value as fallback. -/
def confirmationReply (created : Record) (fields : CustomerFields) : String :=
  "Customer created successfully in D365 F&O!\n\nAccount: " ++
    recordGetD created "CustomerAccount" fields.customer_account ++
    "\nName: " ++ recordGetD created "OrganizationName" fields.organization_name ++
    "\nGroup: " ++ recordGetD created "CustomerGroupId" fields.customer_group_id

/-- Embedding of `_download_audio` (lines 203-230): `status` is the HTTP
outcome of the media GET (`none` models a raised `requests` exception, which
is not a `RuntimeError`); a non-200 status raises `RuntimeError`. -/
def _download_audio (status : Option Nat) : Except PyExc Unit :=
  match status with
  | none => .error .requestsError
  | some code => if code != 200 then .error .runtimeError else .ok ()

/-- The step-4 call `transcribe_audio(audio_data, cfg.openai_api_key)`
(line 128).  `transcribe_audio` (`src/speech_to_text.py` line 14) has three
required positional parameters `(audio_data, speech_key, speech_region)`;
the call supplies only two, so Python raises `TypeError` at the call site,
before any transcription request is made.  `TypeError` is not a
`TranscriptionError`, so the `except TranscriptionError` of line 129 never
fires. -/
def transcribe_audio_call : Except PyExc String := .error .typeError

/-- External inputs of one webhook invocation: the parsed form data plus the
outcome of each network interaction the pipeline may perform. -/
structure PipelineEnv where
  numMedia : Option Int                     -- int(form.get("NumMedia", "0")); none = ValueError
  downloadStatus : Option Nat               -- HTTP status of the media GET; none = requests exception
  gptReply : GptInput                       -- outcome of the GPT extraction call
  silentToken : Option Record               -- msal acquire_token_silent result
  freshToken : Record                       -- msal acquire_token_for_client result
  createRespond : Nat → HttpAttempt Record  -- HTTP outcome of each customer-create POST attempt

/-- Embedding of steps 6-7 of `_process_voice_message` (lines 145-173): the
`try` block authenticates (`_get_d365_client`, which calls
`get_access_token`) and creates the customer (`create_customer`, which calls
`_post_with_retry`); `except (SystemExit, Exception)` catches every error
either can raise — all the `ApiError` outcomes are `raise SystemExit(...)`
sites — and replies with the stage failure text; on success step 7 formats
the confirmation. -/
def run_auth_create (silent : Option Record) (fresh : Record)
    (createRespond : Nat → HttpAttempt Record) (fields : CustomerFields) : TwilioResponse :=
  match get_access_token silent fresh with
  | .error _ => make_twiml_reply CREATE_FAILED_REPLY
  | .ok _ =>
    match (post_with_retry createRespond).1 with
    | .error _ => make_twiml_reply CREATE_FAILED_REPLY
    | .ok created => make_twiml_reply (confirmationReply created fields)

/-- Embedding of `_process_voice_message` (lines 99-173), returning the
response or the escaping exception, together with the trace of stages
entered. -/
def _process_voice_message (env : PipelineEnv) : Except PyExc TwilioResponse × List StageEvent :=
  match env.numMedia with
  | none => (.error .valueError, [.mediaCheck])
  | some n =>
    if n < 1 then (.ok (make_twiml_reply USAGE_INSTRUCTIONS), [.mediaCheck])
    else
      match _download_audio env.downloadStatus with
      | .error .runtimeError =>
        (.ok (make_twiml_reply DOWNLOAD_FAILED_REPLY), [.mediaCheck, .download])
      | .error e => (.error e, [.mediaCheck, .download])
      | .ok _ =>
        match transcribe_audio_call with
        | .error .transcriptionError =>
          (.ok (make_twiml_reply TRANSCRIBE_FAILED_REPLY),
           [.mediaCheck, .download, .transcribeCall])
        | .error e => (.error e, [.mediaCheck, .download, .transcribeCall])
        | .ok transcription =>
          match extract_customer_fields transcription env.gptReply with
          | .parseError msg =>
            (.ok (make_twiml_reply msg),
             [.mediaCheck, .download, .transcribeCall, .extractCall])
          | .pyError =>
            (.error .typeError, [.mediaCheck, .download, .transcribeCall, .extractCall])
          | .ok fields =>
            (.ok (run_auth_create env.silentToken env.freshToken env.createRespond fields),
             [.mediaCheck, .download, .transcribeCall, .extractCall, .authCreateCall])

/-- Whether `except Exception` catches the exception: everything modelled
except `SystemExit`, which subclasses `BaseException` directly. -/
def isException : PyExc → Bool
| .systemExit => false
| _ => true

/-- Embedding of the `webhook_incoming` route handler (lines 70-96).  The
Twilio HMAC check of `_validate_twilio_request` (signature against the
public URL reconstructed from the forwarding headers) is external
cryptography, abstracted as the oracle bit `signatureValid`; the handler
rejects with 403 when validation is enabled and fails, otherwise runs the
pipeline under the outer `except Exception` boundary. -/
def webhook_incoming (skipValidation signatureValid : Bool) (env : PipelineEnv) :
    WebhookOutcome × List StageEvent :=
  if !skipValidation && !signatureValid then (.response .forbidden, [])
  else
    match _process_voice_message env with
    | (.ok resp, evs) => (.response resp, evs)
    | (.error e, evs) =>
      if isException e then (.response (make_twiml_reply GENERIC_ERROR_REPLY), evs)
      else (.crashed e, evs)

/-- A concrete two-page OData server used to instantiate the pagination
theorems on explicit inputs. -/
def demoServe : String → Option Params → PageData Nat := fun url _ =>
  if url = "https://erp.example/data/CustomersV2" then
    ⟨[10, 11], some "https://erp.example/page2"⟩
  else if url = "https://erp.example/page2" then ⟨[12], none⟩
  else ⟨[], none⟩

/-- A server that rate-limits every attempt. -/
def demoAlways429 : Nat → HttpAttempt Nat := fun _ => .response 429 0

/-- A server whose connection drops on attempt 1 and that returns HTTP 401 on
attempt 2. -/
def demoConnThen401 : Nat → HttpAttempt Nat := fun k =>
  if k = 2 then .response 401 0 else .connError

/-- A concrete webhook environment: one media attachment whose download
succeeds with HTTP 200 (the later stage fields are never consulted). -/
def demoEnv : PipelineEnv :=
  { numMedia := some 1
    downloadStatus := some 200
    gptReply := .invalidJson
    silentToken := none
    freshToken := []
    createRespond := fun _ => .connError }

/-- A chain of served pages is never empty: the loop always issues at least
the first request. -/
theorem ServesChain.ne_nil {α : Type} {serve : String → Option Params → PageData α}
    {url : String} {pr : Option Params} {ps : List (PageData α)}
    (h : ServesChain serve url pr ps) : ps ≠ [] := by
  cases h <;> simp

/-- Unlimited pagination follows a served chain: starting anywhere in the
loop with accumulator `acc`, the loop returns `acc` extended by all chained
pages, and issues exactly the first request with the constructed parameters
followed by one request per continuation link, verbatim, with no
parameters. -/
theorem getAllRecordsLoop_chain_none {α : Type}
    (serve : String → Option Params → PageData α) (params : Params) :
    ∀ (ps : List (PageData α)) (url : String) (page : Nat) (acc : List α) (fuel : Nat),
    ServesChain serve url (if page = 1 then some params else none) ps →
    1 ≤ page → ps.length ≤ fuel →
    getAllRecordsLoop serve params none fuel url page acc =
      some (acc ++ pagesRecords ps,
        chainRequests url (if page = 1 then some params else none) ps) := by
  intro ps
  induction ps with
  | nil => intro url page acc fuel h; exact absurd rfl h.ne_nil
  | cons p ps ih =>
    intro url page acc fuel h hpage hfuel
    obtain ⟨fuel, rfl⟩ : ∃ f, fuel = f + 1 := ⟨fuel - 1, by simp at hfuel; omega⟩
    cases h with
    | last hserve hdone =>
      simp only [getAllRecordsLoop, hserve, natTruthy, Bool.false_and, Bool.false_eq_true,
        if_false, hdone, pagesRecords, chainRequests, List.dropLast_single, List.map_nil,
        List.append_nil]
    | @step _ _ _ next _ hserve hlink hne hchain =>
      have hne2 : ps ≠ [] := hchain.ne_nil
      have hcond : (if page + 1 = 1 then some params else (none : Option Params)) = none :=
        if_neg (by omega)
      have hrec := ih next (page + 1) (acc ++ p.value) fuel (by rw [hcond]; exact hchain)
        (by omega) (by simp at hfuel; omega)
      rw [hcond] at hrec
      have hst : strTruthy (some next) = true := by simp [strTruthy, hne]
      simp only [getAllRecordsLoop, hserve, natTruthy, Bool.false_and, Bool.false_eq_true,
        if_false, hlink, Option.getD_some, hst, if_true, hrec]
      cases ps with
      | nil => exact absurd rfl hne2
      | cons q qs => simp [pagesRecords, chainRequests, hlink, List.dropLast]

/-- C2: when the server yields a page sequence whose last page carries no
continuation link, `get_all_records` with `max_records` unset returns the
concatenation of the pages' `value` lists in server order; the first request
goes to the entity URL with the constructed `$select`/`cross-company`
parameters, and every subsequent request targets the server-supplied
continuation link verbatim with no parameters re-attached. -/
theorem c2_get_all_records_concatenates_pages {α : Type}
    (serve : String → Option Params → PageData α) (baseUrl entity : String)
    (selectFields : Option (List String)) (crossCompany : Bool)
    (ps : List (PageData α)) (fuel : Nat)
    (hchain : ServesChain serve (baseUrl ++ "/data/" ++ entity)
      (some (buildParams selectFields crossCompany)) ps)
    (hfuel : ps.length ≤ fuel) :
    get_all_records serve baseUrl entity selectFields crossCompany none fuel =
      some (pagesRecords ps,
        chainRequests (baseUrl ++ "/data/" ++ entity)
          (some (buildParams selectFields crossCompany)) ps) ∧
    (chainRequests (baseUrl ++ "/data/" ++ entity)
        (some (buildParams selectFields crossCompany)) ps).head? =
      some ⟨baseUrl ++ "/data/" ++ entity, some (buildParams selectFields crossCompany)⟩ ∧
    ∀ r ∈ (chainRequests (baseUrl ++ "/data/" ++ entity)
        (some (buildParams selectFields crossCompany)) ps).tail,
      r.params = none := by
  refine ⟨?_, rfl, ?_⟩
  · have h := getAllRecordsLoop_chain_none serve (buildParams selectFields crossCompany) ps
      (baseUrl ++ "/data/" ++ entity) 1 [] fuel (by simpa using hchain) (by omega) hfuel
    unfold get_all_records
    simpa using h
  · intro r hr
    simp only [chainRequests, List.tail_cons, List.mem_map] at hr
    obtain ⟨p, hp, rfl⟩ := hr
    rfl

/-- Witness for C2 on the concrete two-page server: both pages are returned
in order, the first request carries the `$select` and `cross-company`
parameters, the second hits the continuation link with none. -/
theorem c2_get_all_records_concatenates_pages_witness :
    get_all_records demoServe "https://erp.example" "CustomersV2"
        (some ["CustomerAccount", "OrganizationName"]) true none 5 =
      some ([10, 11, 12],
        [⟨"https://erp.example/data/CustomersV2",
          some [("$select", "CustomerAccount,OrganizationName"), ("cross-company", "true")]⟩,
         ⟨"https://erp.example/page2", none⟩]) := by
  have h := (c2_get_all_records_concatenates_pages demoServe "https://erp.example" "CustomersV2"
    (some ["CustomerAccount", "OrganizationName"]) true
    [⟨[10, 11], some "https://erp.example/page2"⟩, ⟨[12], none⟩] 5
    (.step (by decide) rfl (by decide) (.last (by decide) rfl)) (by decide)).1
  exact h.trans (by decide)

/-- Pagination with a positive `max_records = n` that the chain can reach:
the loop stops on the first page where the accumulated count reaches `n`,
truncates the overshooting page to exactly `n` records, and issues no
further requests. -/
theorem getAllRecordsLoop_chain_max {α : Type}
    (serve : String → Option Params → PageData α) (params : Params) (n : Nat) (hn : n ≠ 0) :
    ∀ (ps : List (PageData α)) (url : String) (page : Nat) (acc : List α) (fuel : Nat),
    ServesChain serve url (if page = 1 then some params else none) ps →
    1 ≤ page → ps.length ≤ fuel →
    acc.length < n → n ≤ acc.length + (pagesRecords ps).length →
    ∃ reqs,
      getAllRecordsLoop serve params (some n) fuel url page acc =
        some ((acc ++ pagesRecords ps).take n, reqs) ∧
      reqs.length = pagesUntil (n - acc.length) ps := by
  intro ps
  induction ps with
  | nil => intro url page acc fuel h; exact absurd rfl h.ne_nil
  | cons p ps ih =>
    intro url page acc fuel h hpage hfuel hlt htot
    obtain ⟨fuel, rfl⟩ : ∃ f, fuel = f + 1 := ⟨fuel - 1, by simp at hfuel; omega⟩
    have hnt : natTruthy (some n) = true := by simp [natTruthy, hn]
    have hserve : serve url (if page = 1 then some params else none) = p := by
      cases h with
      | last hs _ => exact hs
      | step hs _ _ _ => exact hs
    by_cases hstop : n ≤ (acc ++ p.value).length
    · have hkey : (acc ++ pagesRecords (p :: ps)).take n = (acc ++ p.value).take n := by
        have hsplit : acc ++ pagesRecords (p :: ps) = (acc ++ p.value) ++ pagesRecords ps := by
          simp [pagesRecords]
        rw [hsplit, List.take_append_of_le_length hstop]
      refine ⟨[⟨url, if page = 1 then some params else none⟩], ?_, ?_⟩
      · simp only [getAllRecordsLoop, hserve, hnt, Bool.true_and, Option.getD_some,
          decide_eq_true_eq, if_pos hstop, hkey]
      · have : n - acc.length ≤ p.value.length := by
          simp only [List.length_append] at hstop; omega
        simp [pagesUntil, this]
    · cases h with
      | last hserve2 hdone =>
        exfalso
        apply hstop
        simp only [List.length_append]
        simpa [pagesRecords] using htot
      | @step _ _ _ next _ hserve2 hlink hne hchain =>
        have hne2 : ps ≠ [] := hchain.ne_nil
        have hcond : (if page + 1 = 1 then some params else (none : Option Params)) = none :=
          if_neg (by omega)
        have hlen : (acc ++ p.value).length < n := by
          simp only [List.length_append]
          simp only [List.length_append] at hstop
          omega
        obtain ⟨reqs, hloop, hreqs⟩ := ih next (page + 1) (acc ++ p.value) fuel
          (by rw [hcond]; exact hchain) (by omega) (by simp at hfuel; omega) hlen
          (by simp only [List.length_append] at htot ⊢
              simp only [pagesRecords, List.length_append] at htot ⊢
              omega)
        have hst : strTruthy (some next) = true := by simp [strTruthy, hne]
        refine ⟨⟨url, if page = 1 then some params else none⟩ :: reqs, ?_, ?_⟩
        · simp only [getAllRecordsLoop, hserve, hnt, Bool.true_and, Option.getD_some,
            decide_eq_true_eq, if_neg hstop, hlink, hst, if_true, hloop]
          have hassoc : acc ++ p.value ++ pagesRecords ps = acc ++ pagesRecords (p :: ps) := by
            simp [pagesRecords]
          rw [hassoc]
        · have hgt : ¬ n - acc.length ≤ p.value.length := by
            simp only [List.length_append] at hlen; omega
          have hsub : n - (acc ++ p.value).length = n - acc.length - p.value.length := by
            simp only [List.length_append]; omega
          simp only [pagesUntil, if_neg hgt, List.length_cons, hreqs, hsub]
          omega

/-- C3: with `max_records = n` (n at least 1, see C9 for n = 0) and a page
chain holding at least `n` records in total, `get_all_records` returns
exactly the first `n` records — the overshooting final page is truncated,
not rounded to a page boundary — and stops requesting pages as soon as the
limit is reached. -/
theorem c3_max_records_truncates {α : Type}
    (serve : String → Option Params → PageData α) (baseUrl entity : String)
    (selectFields : Option (List String)) (crossCompany : Bool)
    (ps : List (PageData α)) (n fuel : Nat)
    (hchain : ServesChain serve (baseUrl ++ "/data/" ++ entity)
      (some (buildParams selectFields crossCompany)) ps)
    (hfuel : ps.length ≤ fuel) (hn : 1 ≤ n) (htot : n ≤ (pagesRecords ps).length) :
    ∃ reqs,
      get_all_records serve baseUrl entity selectFields crossCompany (some n) fuel =
        some ((pagesRecords ps).take n, reqs) ∧
      ((pagesRecords ps).take n).length = n ∧
      reqs.length = pagesUntil n ps := by
  obtain ⟨reqs, hloop, hreqs⟩ := getAllRecordsLoop_chain_max serve
    (buildParams selectFields crossCompany) n (by omega) ps
    (baseUrl ++ "/data/" ++ entity) 1 [] fuel (by simpa using hchain) (by omega) hfuel
    (by simpa using hn) (by simpa using htot)
  refine ⟨reqs, ?_, ?_, ?_⟩
  · unfold get_all_records
    simpa using hloop
  · simp [List.length_take]
    omega
  · simpa using hreqs

/-- Witness for C3 on the concrete two-page server with `max_records = 1`:
the first page overshoots, the result is truncated to one record, and only
one page is requested. -/
theorem c3_max_records_truncates_witness :
    ∃ reqs,
      get_all_records demoServe "https://erp.example" "CustomersV2" none false (some 1) 5 =
        some ([10], reqs) ∧ reqs.length = 1 := by
  obtain ⟨reqs, h1, h2, h3⟩ := c3_max_records_truncates demoServe "https://erp.example"
    "CustomersV2" none false [⟨[10, 11], some "https://erp.example/page2"⟩, ⟨[12], none⟩] 1 5
    (.step (by decide) rfl (by decide) (.last (by decide) rfl)) (by decide) (by decide)
    (by decide)
  exact ⟨reqs, by simpa using h1, by simpa using h3⟩

/-- A `max_records` of `0` is falsy in `if max_records and ...` (line 53), so
the pagination loop behaves exactly as with `max_records = None`. -/
theorem getAllRecordsLoop_zero_eq_none {α : Type}
    (serve : String → Option Params → PageData α) (params : Params) :
    ∀ (fuel : Nat) (url : String) (page : Nat) (acc : List α),
    getAllRecordsLoop serve params (some 0) fuel url page acc =
      getAllRecordsLoop serve params none fuel url page acc := by
  intro fuel
  induction fuel with
  | zero => intro url page acc; rfl
  | succ f ih =>
    intro url page acc
    simp only [getAllRecordsLoop, natTruthy, bne_self_eq_false, Bool.false_and,
      Bool.false_eq_true, if_false, ih]

/-- C9: calling `get_all_records` with `max_records = 0` is the same as
calling it with no limit at all — `0` is falsy in Python, so the truncation
branch never fires and every page is fetched; on the concrete two-page
server all three records come back.  The truncation branch only triggers for
`max_records` of at least 1 (C3). -/
theorem c9_max_records_zero_means_no_limit :
    (∀ (α : Type) (serve : String → Option Params → PageData α)
      (baseUrl entity : String) (selectFields : Option (List String))
      (crossCompany : Bool) (fuel : Nat),
      get_all_records serve baseUrl entity selectFields crossCompany (some 0) fuel =
        get_all_records serve baseUrl entity selectFields crossCompany none fuel) ∧
    get_all_records demoServe "https://erp.example" "CustomersV2" none false (some 0) 3 =
      some ([10, 11, 12],
        [⟨"https://erp.example/data/CustomersV2", some []⟩,
         ⟨"https://erp.example/page2", none⟩]) := by
  constructor
  · intro α serve baseUrl entity selectFields crossCompany fuel
    unfold get_all_records
    exact getAllRecordsLoop_zero_eq_none serve (buildParams selectFields crossCompany) fuel
      (baseUrl ++ "/data/" ++ entity) 1 []
  · rfl

/-- Recording an attempt keeps it in the attempt trace. -/
theorem attemptsOf_cons_attempt (k : Nat) (evs : List RetryEvent) :
    attemptsOf (.attempt k :: evs) = k :: attemptsOf evs := rfl

/-- Sleeps do not appear in the attempt trace. -/
theorem attemptsOf_cons_slept (w : Nat) (evs : List RetryEvent) :
    attemptsOf (.slept w :: evs) = attemptsOf evs := rfl

/-- Attempts do not appear in the sleep trace. -/
theorem sleepsOf_cons_attempt (k : Nat) (evs : List RetryEvent) :
    sleepsOf (.attempt k :: evs) = sleepsOf evs := rfl

/-- Recording a sleep keeps it in the sleep trace. -/
theorem sleepsOf_cons_slept (w : Nat) (evs : List RetryEvent) :
    sleepsOf (.slept w :: evs) = w :: sleepsOf evs := rfl

/-- A retryable outcome on a non-final GET attempt sleeps `base ^ attempt`
seconds and hands over to the remaining attempts. -/
theorem getRetryLoop_retryable_step {α : Type} (respond : Nat → HttpAttempt α)
    (k : Nat) (rest : List Nat) (h : retryable (respond k) = true) (hk : k ≠ MAX_RETRIES) :
    getRetryLoop respond (k :: rest) =
      ((getRetryLoop respond rest).1,
        .attempt k :: .slept (RETRY_BACKOFF_BASE ^ k) :: (getRetryLoop respond rest).2) := by
  cases hr : respond k with
  | response status body =>
    rw [hr] at h
    have h' : status = 429 ∨ 500 ≤ status := by
      simpa [retryable] using h
    simp only [getRetryLoop, hr]
    rcases h' with rfl | h5
    · simp
    · have h200 : ¬ status = 200 := by omega
      have h401 : ¬ status = 401 := by omega
      by_cases h429 : status = 429
      · simp [h429]
      · simp [h200, h401, h429, h5]
  | connError => simp [getRetryLoop, hr, hk]
  | timeout => simp [getRetryLoop, hr, hk]

/-- A retryable outcome on the final GET attempt ends in one of the
three exhausted-`SystemExit` errors, with no further attempt. -/
theorem getRetryLoop_retryable_final {α : Type} (respond : Nat → HttpAttempt α)
    (h : retryable (respond MAX_RETRIES) = true) :
    ∃ e, (getRetryLoop respond [MAX_RETRIES]).1 = .error e ∧ isExhausted e = true ∧
      attemptsOf (getRetryLoop respond [MAX_RETRIES]).2 = [MAX_RETRIES] := by
  cases hr : respond MAX_RETRIES with
  | response status body =>
    rw [hr] at h
    have h' : status = 429 ∨ 500 ≤ status := by
      simpa [retryable] using h
    have hres : getRetryLoop respond [MAX_RETRIES] =
        (.error .retriesExhausted,
          [.attempt MAX_RETRIES, .slept (RETRY_BACKOFF_BASE ^ MAX_RETRIES)]) := by
      rcases h' with rfl | h5
      · simp [getRetryLoop, hr]
      · have h200 : ¬ status = 200 := by omega
        have h401 : ¬ status = 401 := by omega
        by_cases h429 : status = 429
        · simp [getRetryLoop, hr, h429]
        · simp [getRetryLoop, hr, h200, h401, h429, h5]
    exact ⟨.retriesExhausted, by rw [hres], rfl, by rw [hres]; rfl⟩
  | connError =>
    exact ⟨.connectFailed, by simp [getRetryLoop, hr], rfl, by simp [getRetryLoop, hr, attemptsOf]⟩
  | timeout =>
    exact ⟨.timedOut, by simp [getRetryLoop, hr], rfl, by simp [getRetryLoop, hr, attemptsOf]⟩

/-- A retryable outcome on a non-final POST attempt sleeps `base ^ attempt`
seconds and hands over to the remaining attempts. -/
theorem postRetryLoop_retryable_step {α : Type} (respond : Nat → HttpAttempt α)
    (k : Nat) (rest : List Nat) (h : retryable (respond k) = true) (hk : k ≠ MAX_RETRIES) :
    postRetryLoop respond (k :: rest) =
      ((postRetryLoop respond rest).1,
        .attempt k :: .slept (RETRY_BACKOFF_BASE ^ k) :: (postRetryLoop respond rest).2) := by
  cases hr : respond k with
  | response status body =>
    rw [hr] at h
    have h' : status = 429 ∨ 500 ≤ status := by
      simpa [retryable] using h
    simp only [postRetryLoop, hr]
    rcases h' with rfl | h5
    · simp
    · have h201 : ¬ status = 201 := by omega
      have h401 : ¬ status = 401 := by omega
      by_cases h429 : status = 429
      · simp [h429]
      · simp [h201, h401, h429, h5]
  | connError => simp [postRetryLoop, hr, hk]
  | timeout => simp [postRetryLoop, hr, hk]

/-- A retryable outcome on the final POST attempt ends in one of the
three exhausted-`SystemExit` errors, with no further attempt. -/
theorem postRetryLoop_retryable_final {α : Type} (respond : Nat → HttpAttempt α)
    (h : retryable (respond MAX_RETRIES) = true) :
    ∃ e, (postRetryLoop respond [MAX_RETRIES]).1 = .error e ∧ isExhausted e = true ∧
      attemptsOf (postRetryLoop respond [MAX_RETRIES]).2 = [MAX_RETRIES] := by
  cases hr : respond MAX_RETRIES with
  | response status body =>
    rw [hr] at h
    have h' : status = 429 ∨ 500 ≤ status := by
      simpa [retryable] using h
    have hres : postRetryLoop respond [MAX_RETRIES] =
        (.error .retriesExhausted,
          [.attempt MAX_RETRIES, .slept (RETRY_BACKOFF_BASE ^ MAX_RETRIES)]) := by
      rcases h' with rfl | h5
      · simp [postRetryLoop, hr]
      · have h201 : ¬ status = 201 := by omega
        have h401 : ¬ status = 401 := by omega
        by_cases h429 : status = 429
        · simp [postRetryLoop, hr, h429]
        · simp [postRetryLoop, hr, h201, h401, h429, h5]
    exact ⟨.retriesExhausted, by rw [hres], rfl, by rw [hres]; rfl⟩
  | connError =>
    exact ⟨.connectFailed, by simp [postRetryLoop, hr], rfl,
      by simp [postRetryLoop, hr, attemptsOf]⟩
  | timeout =>
    exact ⟨.timedOut, by simp [postRetryLoop, hr], rfl,
      by simp [postRetryLoop, hr, attemptsOf]⟩

/-- C4: on both the GET and the POST path, a request whose attempts all fail
with retryable conditions (429, 5xx, connection failure or timeout) makes
exactly 3 attempts and then surfaces an attempts-exhausted `SystemExit`; and
a request that sees HTTP 401 on any attempt (earlier attempts retryable)
aborts there with the authentication error and makes no further attempts. -/
theorem c4_three_attempts_and_401_aborts :
    (∀ (α : Type) (respond : Nat → HttpAttempt α),
      (∀ k, 1 ≤ k → k ≤ MAX_RETRIES → retryable (respond k) = true) →
      ∃ e, (get_with_retry respond).1 = .error e ∧ isExhausted e = true ∧
        attemptsOf (get_with_retry respond).2 = [1, 2, 3]) ∧
    (∀ (α : Type) (respond : Nat → HttpAttempt α) (k : Nat) (body : α),
      1 ≤ k → k ≤ MAX_RETRIES →
      (∀ j, 1 ≤ j → j < k → retryable (respond j) = true) →
      respond k = .response 401 body →
      (get_with_retry respond).1 = .error .authError ∧
        attemptsOf (get_with_retry respond).2 = List.range' 1 k) ∧
    (∀ (α : Type) (respond : Nat → HttpAttempt α),
      (∀ k, 1 ≤ k → k ≤ MAX_RETRIES → retryable (respond k) = true) →
      ∃ e, (post_with_retry respond).1 = .error e ∧ isExhausted e = true ∧
        attemptsOf (post_with_retry respond).2 = [1, 2, 3]) ∧
    (∀ (α : Type) (respond : Nat → HttpAttempt α) (k : Nat) (body : α),
      1 ≤ k → k ≤ MAX_RETRIES →
      (∀ j, 1 ≤ j → j < k → retryable (respond j) = true) →
      respond k = .response 401 body →
      (post_with_retry respond).1 = .error .authError ∧
        attemptsOf (post_with_retry respond).2 = List.range' 1 k) := by
  refine ⟨?_, ?_, ?_, ?_⟩
  · intro α respond hall
    have e1 := getRetryLoop_retryable_step respond 1 [2, 3]
      (hall 1 (by omega) (by decide)) (by decide)
    have e2 := getRetryLoop_retryable_step respond 2 [3]
      (hall 2 (by omega) (by decide)) (by decide)
    obtain ⟨e, he1, he2, he3⟩ := getRetryLoop_retryable_final respond
      (hall 3 (by omega) (by decide))
    refine ⟨e, ?_, he2, ?_⟩
    · show (getRetryLoop respond [1, 2, 3]).1 = .error e
      rw [e1, e2]
      exact he1
    · show attemptsOf (getRetryLoop respond [1, 2, 3]).2 = [1, 2, 3]
      rw [e1, e2]
      simp only [attemptsOf_cons_attempt, attemptsOf_cons_slept]
      rw [show attemptsOf (getRetryLoop respond [3]).2 = [3] from he3]
  · intro α respond k body hk1 hk3 hprev h401
    have hM : (MAX_RETRIES : Nat) = 3 := rfl
    rw [hM] at hk3
    interval_cases k
    · constructor <;>
        · show _ = _
          simp [get_with_retry, getRetryLoop, h401, attemptsOf, List.range']
    · have e1 := getRetryLoop_retryable_step respond 1 [2, 3]
        (hprev 1 (by omega) (by omega)) (by decide)
      constructor
      · show (getRetryLoop respond [1, 2, 3]).1 = _
        rw [e1]
        simp [getRetryLoop, h401]
      · show attemptsOf (getRetryLoop respond [1, 2, 3]).2 = _
        rw [e1]
        simp [getRetryLoop, h401, attemptsOf, List.range']
    · have e1 := getRetryLoop_retryable_step respond 1 [2, 3]
        (hprev 1 (by omega) (by omega)) (by decide)
      have e2 := getRetryLoop_retryable_step respond 2 [3]
        (hprev 2 (by omega) (by omega)) (by decide)
      constructor
      · show (getRetryLoop respond [1, 2, 3]).1 = _
        rw [e1, e2]
        simp [getRetryLoop, h401]
      · show attemptsOf (getRetryLoop respond [1, 2, 3]).2 = _
        rw [e1, e2]
        simp [getRetryLoop, h401, attemptsOf, List.range']
  · intro α respond hall
    have e1 := postRetryLoop_retryable_step respond 1 [2, 3]
      (hall 1 (by omega) (by decide)) (by decide)
    have e2 := postRetryLoop_retryable_step respond 2 [3]
      (hall 2 (by omega) (by decide)) (by decide)
    obtain ⟨e, he1, he2, he3⟩ := postRetryLoop_retryable_final respond
      (hall 3 (by omega) (by decide))
    refine ⟨e, ?_, he2, ?_⟩
    · show (postRetryLoop respond [1, 2, 3]).1 = .error e
      rw [e1, e2]
      exact he1
    · show attemptsOf (postRetryLoop respond [1, 2, 3]).2 = [1, 2, 3]
      rw [e1, e2]
      simp only [attemptsOf_cons_attempt, attemptsOf_cons_slept]
      rw [show attemptsOf (postRetryLoop respond [3]).2 = [3] from he3]
  · intro α respond k body hk1 hk3 hprev h401
    have hM : (MAX_RETRIES : Nat) = 3 := rfl
    rw [hM] at hk3
    interval_cases k
    · constructor <;>
        · show _ = _
          simp [post_with_retry, postRetryLoop, h401, attemptsOf, List.range']
    · have e1 := postRetryLoop_retryable_step respond 1 [2, 3]
        (hprev 1 (by omega) (by omega)) (by decide)
      constructor
      · show (postRetryLoop respond [1, 2, 3]).1 = _
        rw [e1]
        simp [postRetryLoop, h401]
      · show attemptsOf (postRetryLoop respond [1, 2, 3]).2 = _
        rw [e1]
        simp [postRetryLoop, h401, attemptsOf, List.range']
    · have e1 := postRetryLoop_retryable_step respond 1 [2, 3]
        (hprev 1 (by omega) (by omega)) (by decide)
      have e2 := postRetryLoop_retryable_step respond 2 [3]
        (hprev 2 (by omega) (by omega)) (by decide)
      constructor
      · show (postRetryLoop respond [1, 2, 3]).1 = _
        rw [e1, e2]
        simp [postRetryLoop, h401]
      · show attemptsOf (postRetryLoop respond [1, 2, 3]).2 = _
        rw [e1, e2]
        simp [postRetryLoop, h401, attemptsOf, List.range']

/-- Witness for C4: a server that always rate-limits exhausts the 3 GET
attempts; a server with a dropped connection then a 401 aborts on attempt 2
without a third attempt. -/
theorem c4_three_attempts_and_401_aborts_witness :
    (∃ e, (get_with_retry demoAlways429).1 = .error e ∧ isExhausted e = true ∧
      attemptsOf (get_with_retry demoAlways429).2 = [1, 2, 3]) ∧
    (get_with_retry demoConnThen401).1 = .error .authError ∧
      attemptsOf (get_with_retry demoConnThen401).2 = List.range' 1 2 := by
  refine ⟨c4_three_attempts_and_401_aborts.1 Nat demoAlways429 ?_,
    c4_three_attempts_and_401_aborts.2.1 Nat demoConnThen401 2 0 (by decide) (by decide) ?_
      (by decide)⟩
  · intro k h1 h3
    rfl
  · intro j h1 hlt
    have : j = 1 := by omega
    rw [this]
    rfl

/-- Whatever the first attempt's outcome, a GET retry run opens by issuing
that attempt: its event trace starts with `attempt k`. -/
theorem getRetryLoop_head_attempt {α : Type} (respond : Nat → HttpAttempt α)
    (k : Nat) (rest : List Nat) :
    ((getRetryLoop respond (k :: rest)).2).head? = some (.attempt k) := by
  cases hr : respond k with
  | response status body =>
    simp only [getRetryLoop, hr]
    split
    · rfl
    · split
      · rfl
      · split
        · rfl
        · split
          · rfl
          · rfl
  | connError =>
    simp only [getRetryLoop, hr]
    split <;> rfl
  | timeout =>
    simp only [getRetryLoop, hr]
    split <;> rfl

/-- Whatever the first attempt's outcome, a POST retry run opens by issuing
that attempt: its event trace starts with `attempt k`. -/
theorem postRetryLoop_head_attempt {α : Type} (respond : Nat → HttpAttempt α)
    (k : Nat) (rest : List Nat) :
    ((postRetryLoop respond (k :: rest)).2).head? = some (.attempt k) := by
  cases hr : respond k with
  | response status body =>
    simp only [postRetryLoop, hr]
    split
    · rfl
    · split
      · rfl
      · split
        · rfl
        · split
          · rfl
          · rfl
  | connError =>
    simp only [postRetryLoop, hr]
    split <;> rfl
  | timeout =>
    simp only [postRetryLoop, hr]
    split <;> rfl

/-- C8: the backoff base is the fixed integer 2; a retryable failure on a
non-final attempt `k` sleeps exactly `base ^ k` seconds before the next
attempt; when every attempt is rate-limited or a server error the sleeps are
2, 4, 8 seconds for attempts 1, 2, 3; and every fresh logical request — the
webhook create POST as well as each page's `_get_with_retry` call in the
pagination loop (line 47) — begins at attempt 1. -/
theorem c8_exponential_backoff_restarts_per_request :
    RETRY_BACKOFF_BASE = 2 ∧
    (∀ (α : Type) (respond : Nat → HttpAttempt α) (k : Nat) (rest : List Nat),
      retryable (respond k) = true → k ≠ MAX_RETRIES →
      (getRetryLoop respond (k :: rest)).2 =
        .attempt k :: .slept (RETRY_BACKOFF_BASE ^ k) :: (getRetryLoop respond rest).2) ∧
    (∀ (α : Type) (respond : Nat → HttpAttempt α),
      (∀ k, 1 ≤ k → k ≤ MAX_RETRIES →
        ∃ s b, respond k = .response s b ∧ (s = 429 ∨ 500 ≤ s)) →
      sleepsOf (get_with_retry respond).2 = [2, 4, 8]) ∧
    (∀ (α : Type) (respond : Nat → HttpAttempt α),
      (get_with_retry respond).2.head? = some (.attempt 1)) ∧
    (∀ (α : Type) (respond : Nat → HttpAttempt α),
      (post_with_retry respond).2.head? = some (.attempt 1)) := by
  refine ⟨rfl, ?_, ?_, ?_, ?_⟩
  · intro α respond k rest h hk
    rw [getRetryLoop_retryable_step respond k rest h hk]
  · intro α respond hall
    have hretry : ∀ k, 1 ≤ k → k ≤ MAX_RETRIES → retryable (respond k) = true := by
      intro k h1 h3
      obtain ⟨s, b, hr, hs⟩ := hall k h1 h3
      rcases hs with rfl | h5
      · simp [retryable, hr]
      · simp [retryable, hr]
        omega
    have e1 := getRetryLoop_retryable_step respond 1 [2, 3]
      (hretry 1 (by omega) (by decide)) (by decide)
    have e2 := getRetryLoop_retryable_step respond 2 [3]
      (hretry 2 (by omega) (by decide)) (by decide)
    obtain ⟨s, b, hr, hs⟩ := hall 3 (by omega) (by decide)
    have e3 : (getRetryLoop respond [3]).2 = [.attempt 3, .slept 8] := by
      rcases hs with rfl | h5
      · simp [getRetryLoop, hr]
        rfl
      · have h200 : ¬ s = 200 := by omega
        have h401 : ¬ s = 401 := by omega
        by_cases h429 : s = 429
        · simp [getRetryLoop, hr, h429]
          rfl
        · simp [getRetryLoop, hr, h200, h401, h429, h5]
          rfl
    show sleepsOf (getRetryLoop respond [1, 2, 3]).2 = [2, 4, 8]
    rw [e1, e2]
    simp only [sleepsOf_cons_attempt, sleepsOf_cons_slept, e3]
    rfl
  · intro α respond
    show ((getRetryLoop respond (1 :: [2, 3])).2).head? = some (.attempt 1)
    exact getRetryLoop_head_attempt respond 1 [2, 3]
  · intro α respond
    show ((postRetryLoop respond (1 :: [2, 3])).2).head? = some (.attempt 1)
    exact postRetryLoop_head_attempt respond 1 [2, 3]

/-- Witness for C8: on the always-rate-limited server the GET path sleeps
2, then 4, then 8 seconds, and both paths open with attempt 1. -/
theorem c8_exponential_backoff_restarts_per_request_witness :
    sleepsOf (get_with_retry demoAlways429).2 = [2, 4, 8] ∧
    (get_with_retry demoAlways429).2.head? = some (.attempt 1) ∧
    (post_with_retry demoAlways429).2.head? = some (.attempt 1) := by
  refine ⟨c8_exponential_backoff_restarts_per_request.2.2.1 Nat demoAlways429 ?_,
    c8_exponential_backoff_restarts_per_request.2.2.2.1 Nat demoAlways429,
    c8_exponential_backoff_restarts_per_request.2.2.2.2 Nat demoAlways429⟩
  intro k h1 h3
  exact ⟨429, 0, rfl, Or.inl rfl⟩

/-- C5: extraction is all-or-nothing.  A successful `extract_customer_fields`
returns three non-empty fields — never one or two; and whenever the parsed
reply is an object without an `error` key and some field is blank, the
raised `ParseError` message is built from the `missing` list, which contains
a field name exactly when that field is blank. -/
theorem c5_extraction_all_or_nothing :
    (∀ (text : String) (reply : GptInput) (f : CustomerFields),
      extract_customer_fields text reply = .ok f →
      f.customer_account ≠ "" ∧ f.organization_name ≠ "" ∧ f.customer_group_id ≠ "") ∧
    (∀ (text : String) (kvs : List (String × JsonVal)),
      jdictHas kvs "error" = false → missingOf kvs ≠ [] →
      extract_customer_fields text (.parsed (.jobj kvs)) =
        .parseError (missingMessage (missingOf kvs))) ∧
    (∀ (kvs : List (String × JsonVal)) (fld : String),
      fld ∈ missingOf kvs ↔
        ((fld = "CustomerAccount" ∧ fieldValue kvs "CustomerAccount" = "") ∨
         (fld = "OrganizationName" ∧ fieldValue kvs "OrganizationName" = "") ∨
         (fld = "CustomerGroupId" ∧ fieldValue kvs "CustomerGroupId" = ""))) := by
  refine ⟨?_, ?_, ?_⟩
  · intro text reply f h
    cases reply with
    | apiFailure msg => simp [extract_customer_fields] at h
    | invalidJson => simp [extract_customer_fields] at h
    | parsed v =>
      cases v with
      | jobj kvs =>
        by_cases herr : jdictHas kvs "error" = true
        · simp [extract_customer_fields, herr] at h
        · by_cases hm : (missingOf kvs).isEmpty = true
          · have h1 : fieldValue kvs "CustomerAccount" ≠ "" := by
              intro hc
              simp [missingOf, hc] at hm
            have h2 : fieldValue kvs "OrganizationName" ≠ "" := by
              intro hc
              simp [missingOf, hc] at hm
            have h3 : fieldValue kvs "CustomerGroupId" ≠ "" := by
              intro hc
              simp [missingOf, hc] at hm
            simp only [extract_customer_fields, herr, Bool.false_eq_true, if_false, hm,
              if_true, ExtractOutcome.ok.injEq] at h
            rw [← h]
            exact ⟨h1, h2, h3⟩
          · simp [extract_customer_fields, herr, hm] at h
      | null => simp [extract_customer_fields] at h
      | jbool b => simp [extract_customer_fields] at h
      | jnum n => simp [extract_customer_fields] at h
      | jstr s => simp [extract_customer_fields] at h
      | jarr xs => simp [extract_customer_fields] at h
  · intro text kvs herr hmiss
    have hie : ¬ (missingOf kvs).isEmpty = true := by
      simpa [List.isEmpty_iff] using hmiss
    simp [extract_customer_fields, herr, hie]
  · intro kvs fld
    simp only [missingOf, List.mem_append]
    split_ifs with h1 h2 h3 <;> simp_all <;> tauto

/-- Witness for C5: a reply carrying only the account field raises the
`ParseError` naming the two missing fields. -/
theorem c5_extraction_all_or_nothing_witness :
    extract_customer_fields "Create customer AK001"
        (.parsed (.jobj [("CustomerAccount", .jstr "AK001")])) =
      .parseError (missingMessage (missingOf [("CustomerAccount", .jstr "AK001")])) :=
  c5_extraction_all_or_nothing.2.1 "Create customer AK001"
    [("CustomerAccount", .jstr "AK001")] (by decide) (by decide)

set_option maxRecDepth 40000

/-- C6 counterexample: the code applies no number-word lookup table.  When
the model's reply echoes the spoken word, extracting from the text
"... group eighty" returns group field "eighty", not "80": the group value
is passed through verbatim, so the claimed code-level normalization does not
exist (the `SYSTEM_PROMPT` merely asks the model to normalize). -/
theorem c6_group_word_not_normalized_counterexample :
    extract_customer_fields "Create customer AK005, name Abdo Khoury, group eighty"
        (.parsed (.jobj [("CustomerAccount", .jstr "AK005"),
          ("OrganizationName", .jstr "Abdo Khoury"),
          ("CustomerGroupId", .jstr "eighty")])) =
      .ok ⟨"AK005", "Abdo Khoury", "eighty"⟩ ∧
    ("eighty" : String) ≠ "80" := by
  constructor
  · decide
  · decide

/-- C6 amended: number-word normalization is delegated to the language
model, not performed by the code.  `SYSTEM_PROMPT` contains the instruction
to extract "80" from "group 80" or "customer group eighty", and the
extractor returns the model-supplied group value verbatim (after stripping
whitespace), with no lookup table applied. -/
theorem c6_normalization_delegated_to_model :
    (∃ pre post : String,
      SYSTEM_PROMPT =
        pre ++ "If the user says \"group 80\" or \"customer group eighty\", extract \"80\"." ++
          post) ∧
    (∀ (text acct nm grp : String),
      pyStrip acct ≠ "" → pyStrip nm ≠ "" → pyStrip grp ≠ "" →
      extract_customer_fields text (.parsed (.jobj [("CustomerAccount", .jstr acct),
        ("OrganizationName", .jstr nm), ("CustomerGroupId", .jstr grp)])) =
        .ok ⟨pyStrip acct, pyStrip nm, pyStrip grp⟩) := by
  constructor
  · refine ⟨"You are a data extraction assistant for a Dynamics 365 Finance & Operations system.\nYour job is to extract exactly three fields from a user\x27s voice message about creating a new customer.\n\nThe three required fields are:\n1. CustomerAccount - A short alphanumeric identifier (e.g., \"AK001\", \"CUST042\"). If the user says something like \"account AK001\" or \"customer ID AK001\", extract \"AK001\".\n2. OrganizationName - The full name of the customer/company/organization (e.g., \"Abdo Khoury\", \"Contoso Ltd\").\n3. CustomerGroupId - A numeric group identifier (e.g., \"80\", \"10\", \"20\"). ",
      "\n\nYou MUST respond with ONLY a valid JSON object in this exact format, with no additional text:\n\x7b\"CustomerAccount\": \"...\", \"OrganizationName\": \"...\", \"CustomerGroupId\": \"...\"\x7d\n\nIf you cannot confidently extract ALL THREE fields from the message, respond with:\n\x7b\"error\": \"Could not extract [list missing fields]. Please state your customer account ID, organization name, and customer group number.\"\x7d", ?_⟩
    decide
  · intro text acct nm grp h1 h2 h3
    have e1 : fieldValue [("CustomerAccount", .jstr acct), ("OrganizationName", .jstr nm),
        ("CustomerGroupId", .jstr grp)] "CustomerAccount" = pyStrip acct := rfl
    have e2 : fieldValue [("CustomerAccount", .jstr acct), ("OrganizationName", .jstr nm),
        ("CustomerGroupId", .jstr grp)] "OrganizationName" = pyStrip nm := rfl
    have e3 : fieldValue [("CustomerAccount", .jstr acct), ("OrganizationName", .jstr nm),
        ("CustomerGroupId", .jstr grp)] "CustomerGroupId" = pyStrip grp := rfl
    have herr : jdictHas [("CustomerAccount", JsonVal.jstr acct),
        ("OrganizationName", JsonVal.jstr nm), ("CustomerGroupId", JsonVal.jstr grp)]
        "error" = false := rfl
    simp [extract_customer_fields, herr, missingOf, e1, e2, e3, h1, h2, h3]

/-- Witness for the amended C6: with a numeric reply "80" (and with any
other reply) the extractor returns the model's value stripped, unchanged. -/
theorem c6_normalization_delegated_to_model_witness :
    extract_customer_fields "Account AK005, name Abdo Khoury, group 80"
        (.parsed (.jobj [("CustomerAccount", .jstr "AK005"),
          ("OrganizationName", .jstr "Abdo Khoury"), ("CustomerGroupId", .jstr "80")])) =
      .ok ⟨pyStrip "AK005", pyStrip "Abdo Khoury", pyStrip "80"⟩ :=
  c6_normalization_delegated_to_model.2 "Account AK005, name Abdo Khoury, group 80"
    "AK005" "Abdo Khoury" "80" (by decide) (by decide) (by decide)

/-- C7: with signature validation enabled, a POST whose Twilio signature does
not validate is answered with the 403 rejection and an empty stage trace —
no media check, download, transcription, extraction, authentication or
record creation is ever entered, whatever the rest of the request holds. -/
theorem c7_invalid_signature_rejected_before_any_stage :
    ∀ env : PipelineEnv, webhook_incoming false false env = (.response .forbidden, []) := by
  intro env
  rfl

/-- C10: a `SystemExit` raised inside the authenticate-and-create stage —
by `get_access_token` (`sys.exit(1)` on a failed token acquisition) or by
the API client (every `ApiError` is a `raise SystemExit` site: 401,
non-retryable 4xx, or exhausted retries) — is caught by that stage's
`except (SystemExit, Exception)` boundary and converted into the single
create-failure reply; the stage always yields exactly one TwiML message and
never lets an exception escape. -/
theorem c10_stage_boundary_catches_system_exit :
    (∀ (silent : Option Record) (fresh : Record)
      (createRespond : Nat → HttpAttempt Record) (fields : CustomerFields),
      get_access_token silent fresh = .error () →
      run_auth_create silent fresh createRespond fields =
        make_twiml_reply CREATE_FAILED_REPLY) ∧
    (∀ (silent : Option Record) (fresh : Record)
      (createRespond : Nat → HttpAttempt Record) (fields : CustomerFields) (e : ApiError),
      (post_with_retry createRespond).1 = .error e →
      run_auth_create silent fresh createRespond fields =
        make_twiml_reply CREATE_FAILED_REPLY) ∧
    (∀ (silent : Option Record) (fresh : Record)
      (createRespond : Nat → HttpAttempt Record) (fields : CustomerFields),
      ∃ m, run_auth_create silent fresh createRespond fields = .twiml [m]) := by
  refine ⟨?_, ?_, ?_⟩
  · intro silent fresh createRespond fields htok
    simp [run_auth_create, htok]
  · intro silent fresh createRespond fields e hpost
    cases htok : get_access_token silent fresh with
    | error u => simp [run_auth_create, htok]
    | ok tok => simp [run_auth_create, htok, hpost]
  · intro silent fresh createRespond fields
    cases htok : get_access_token silent fresh with
    | error u =>
      exact ⟨CREATE_FAILED_REPLY, by simp [run_auth_create, htok, make_twiml_reply]⟩
    | ok tok =>
      cases hpost : (post_with_retry createRespond).1 with
      | error e =>
        exact ⟨CREATE_FAILED_REPLY, by simp [run_auth_create, htok, hpost, make_twiml_reply]⟩
      | ok created =>
        exact ⟨confirmationReply created fields,
          by simp [run_auth_create, htok, hpost, make_twiml_reply]⟩

/-- Witness for C10: with no cached token and a token response carrying no
`access_token`, the authenticator exits via `SystemExit` and the stage
replies with the create-failure message. -/
theorem c10_stage_boundary_catches_system_exit_witness :
    run_auth_create none [] (fun _ => .connError) ⟨"AK001", "Abdo Khoury", "80"⟩ =
      make_twiml_reply CREATE_FAILED_REPLY :=
  c10_stage_boundary_catches_system_exit.1 none [] (fun _ => .connError)
    ⟨"AK001", "Abdo Khoury", "80"⟩ rfl

/-- C1 (code bug): the single-reply invariant does hold — every POST passing
signature validation yields exactly one TwiML message — but the
stage-specific replies past the download stage are unreachable: the
`transcribe_audio` call at line 128 of `src/whatsapp_webhook.py` passes two
arguments to a three-parameter function, so every voice message raises
`TypeError` there and gets the generic apology from the outer boundary, and
the extraction and authenticate-and-create stages are never entered on any
request. -/
theorem c1_single_reply_but_transcription_stage_broken :
    (∀ env : PipelineEnv, ∃ m : String,
      (webhook_incoming false true env).1 = .response (.twiml [m])) ∧
    webhook_incoming false true demoEnv =
      (.response (.twiml [GENERIC_ERROR_REPLY]),
        [.mediaCheck, .download, .transcribeCall]) ∧
    GENERIC_ERROR_REPLY ≠ TRANSCRIBE_FAILED_REPLY ∧
    (∀ env : PipelineEnv, .extractCall ∉ (webhook_incoming false true env).2) ∧
    (∀ env : PipelineEnv, .authCreateCall ∉ (webhook_incoming false true env).2) := by
  refine ⟨?_, by decide, by decide, ?_, ?_⟩
  · intro env
    cases hm : env.numMedia with
    | none =>
      exact ⟨GENERIC_ERROR_REPLY, by simp [webhook_incoming, _process_voice_message, hm,
        isException, make_twiml_reply]⟩
    | some n =>
      by_cases hn : n < 1
      · exact ⟨USAGE_INSTRUCTIONS, by simp [webhook_incoming, _process_voice_message, hm, hn,
          make_twiml_reply]⟩
      · cases hd : env.downloadStatus with
        | none =>
          exact ⟨GENERIC_ERROR_REPLY, by simp [webhook_incoming, _process_voice_message, hm, hn,
            hd, _download_audio, isException, make_twiml_reply]⟩
        | some code =>
          by_cases hc : code = 200
          · exact ⟨GENERIC_ERROR_REPLY, by simp [webhook_incoming, _process_voice_message, hm,
              hn, hd, hc, _download_audio, transcribe_audio_call, isException, make_twiml_reply]⟩
          · exact ⟨DOWNLOAD_FAILED_REPLY, by simp [webhook_incoming, _process_voice_message, hm,
              hn, hd, hc, _download_audio, isException, make_twiml_reply]⟩
  · intro env
    cases hm : env.numMedia with
    | none => simp [webhook_incoming, _process_voice_message, hm, isException]
    | some n =>
      by_cases hn : n < 1
      · simp [webhook_incoming, _process_voice_message, hm, hn]
      · cases hd : env.downloadStatus with
        | none =>
          simp [webhook_incoming, _process_voice_message, hm, hn, hd, _download_audio,
            isException]
        | some code =>
          by_cases hc : code = 200
          · simp [webhook_incoming, _process_voice_message, hm, hn, hd, hc, _download_audio,
              transcribe_audio_call, isException]
          · simp [webhook_incoming, _process_voice_message, hm, hn, hd, hc, _download_audio,
              isException]
  · intro env
    cases hm : env.numMedia with
    | none => simp [webhook_incoming, _process_voice_message, hm, isException]
    | some n =>
      by_cases hn : n < 1
      · simp [webhook_incoming, _process_voice_message, hm, hn]
      · cases hd : env.downloadStatus with
        | none =>
          simp [webhook_incoming, _process_voice_message, hm, hn, hd, _download_audio,
            isException]
        | some code =>
          by_cases hc : code = 200
          · simp [webhook_incoming, _process_voice_message, hm, hn, hd, hc, _download_audio,
              transcribe_audio_call, isException]
          · simp [webhook_incoming, _process_voice_message, hm, hn, hd, hc, _download_audio,
              isException]

/-- Witness for C1: the concrete voice-message environment gets exactly one
reply (the generic apology) and never reaches the extraction or
authenticate-and-create stages. -/
theorem c1_single_reply_but_transcription_stage_broken_witness :
    (∃ m : String, (webhook_incoming false true demoEnv).1 = .response (.twiml [m])) ∧
    .extractCall ∉ (webhook_incoming false true demoEnv).2 ∧
    .authCreateCall ∉ (webhook_incoming false true demoEnv).2 :=
  ⟨c1_single_reply_but_transcription_stage_broken.1 demoEnv,
    c1_single_reply_but_transcription_stage_broken.2.2.2.1 demoEnv,
    c1_single_reply_but_transcription_stage_broken.2.2.2.2 demoEnv⟩

end D365
